import Mathlib

/-!
Verification development for the installer-creator repository.

The Python source is shallowly embedded: each relevant Python function is
translated into an executable Lean definition operating on explicit data.
Python dictionary values are represented by the inductive type `PyVal`;
Python dictionaries are association lists with string keys (insertion
ordered, as in CPython), and `dict.get` is modelled by `dictGet` /
`dictGetD`.  Filesystem- and clock-dependent behaviour is parameterised by
explicit environment records.
-/

set_option maxRecDepth 4000

namespace InstallerCreator

/-- A Python value as it occurs in the serialized project data: strings,
integers, booleans, `None`, lists and string-keyed dictionaries. -/
inductive PyVal where
  | str (s : String)
  | int (n : Int)
  | bool (b : Bool)
  | none
  | list (xs : List PyVal)
  | dict (kvs : List (String × PyVal))
deriving Repr

/-- Model of `d.get(k)` on a Python dict: the value at the first matching key, if any. -/
def dictGet (kvs : List (String × PyVal)) (k : String) : Option PyVal :=
  (kvs.find? (fun kv => kv.1 == k)).map (fun kv => kv.2)

/-- Model of `d.get(k, dflt)` on a Python dict. -/
def dictGetD (kvs : List (String × PyVal)) (k : String) (dflt : PyVal) : PyVal :=
  (dictGet kvs k).getD dflt

/-- Python `x == s` for a string literal `s`: true exactly when `x` is a
string with the same content. -/
def pyEqStr (v : PyVal) (s : String) : Bool :=
  match v with
  | .str t => t == s
  | _ => false

/-- Python truthiness of the values `dictGetD` can produce here: `''`, `0`,
`False`, `None`, `[]`, and the empty dict are falsy. -/
def pyTruthy (v : PyVal) : Bool :=
  match v with
  | .str s => !(s == "")
  | .int n => !(n == 0)
  | .bool b => b
  | .none => false
  | .list xs => !xs.isEmpty
  | .dict kvs => !kvs.isEmpty

/-! ## Data model (src/core/models.py) -/

/-- The `ScriptElementType` enum of models.py; `value` gives the Python
enum's string value. -/
inductive ScriptElementType where
  | install_file
  | create_dir
  | create_shortcut
  | execute_command
  | set_registry
  | create_uninstaller
  | show_license
  | require_admin
  | check_disk_space
  | download_file
  | create_service
  | set_environment
  | run_script
deriving DecidableEq, Repr

/-- The `.value` string of a `ScriptElementType` member. -/
def ScriptElementType.value : ScriptElementType → String
  | .install_file => "install_file"
  | .create_dir => "create_dir"
  | .create_shortcut => "create_shortcut"
  | .execute_command => "execute_command"
  | .set_registry => "set_registry"
  | .set_environment => "set_environment"
  | .create_uninstaller => "create_uninstaller"
  | .show_license => "show_license"
  | .require_admin => "require_admin"
  | .check_disk_space => "check_disk_space"
  | .download_file => "download_file"
  | .create_service => "create_service"
  | .run_script => "run_script"

/-- Model of `ScriptElementType(s)`: the enum member whose value is `s`, if any. -/
def ScriptElementType.ofValue (s : String) : Option ScriptElementType :=
  [ScriptElementType.install_file, .create_dir, .create_shortcut,
   .execute_command, .set_registry, .create_uninstaller, .show_license,
   .require_admin, .check_disk_space, .download_file, .create_service,
   .set_environment, .run_script].find? (fun t => t.value == s)

/-- Model of `ScriptElement` dataclass: an element of the installer script.  The
`parameters` bag is an open string-keyed dictionary. -/
structure ScriptElement where
  type : ScriptElementType
  name : String
  parameters : List (String × PyVal)
  id : String
  enabled : Bool
  critical : Bool
deriving Repr

/-- Model of `ScriptElement.to_dict`. -/
def ScriptElement.toDict (e : ScriptElement) : List (String × PyVal) :=
  [("type", .str e.type.value),
   ("name", .str e.name),
   ("parameters", .dict e.parameters),
   ("id", .str e.id),
   ("enabled", .bool e.enabled),
   ("critical", .bool e.critical)]

/-- Model of `ShortcutConfig` dataclass. -/
structure ShortcutConfig where
  name : String
  target : String
  icon : String
  working_dir : String
  arguments : String
  location : String
  description : String
deriving Repr

/-- Model of `ShortcutConfig.to_dict` (dataclasses.asdict: fields in declaration
order). -/
def ShortcutConfig.toDict (s : ShortcutConfig) : List (String × PyVal) :=
  [("name", .str s.name),
   ("target", .str s.target),
   ("icon", .str s.icon),
   ("working_dir", .str s.working_dir),
   ("arguments", .str s.arguments),
   ("location", .str s.location),
   ("description", .str s.description)]

/-- Model of `RegistryEntry` dataclass; `value_data` is typed `Any` in the source and
is embedded as an arbitrary `PyVal`. -/
structure RegistryEntry where
  hive : String
  key : String
  value_name : String
  value_type : String
  value_data : PyVal
  action : String
deriving Repr

/-- Model of `RegistryEntry.to_dict` (dataclasses.asdict: fields in declaration
order). -/
def RegistryEntry.toDict (r : RegistryEntry) : List (String × PyVal) :=
  [("hive", .str r.hive),
   ("key", .str r.key),
   ("value_name", .str r.value_name),
   ("value_type", .str r.value_type),
   ("value_data", r.value_data),
   ("action", .str r.action)]

/-- Model of `FileEntry` dataclass. -/
structure FileEntry where
  source_path : String
  install_path : String
  is_binary : Bool
  is_directory : Bool
  compress : Bool
  hash : String
  version : String
  description : String
deriving Repr

/-- Model of `FileEntry.to_dict`. -/
def FileEntry.toDict (f : FileEntry) : List (String × PyVal) :=
  [("source_path", .str f.source_path),
   ("install_path", .str f.install_path),
   ("is_binary", .bool f.is_binary),
   ("is_directory", .bool f.is_directory),
   ("compress", .bool f.compress),
   ("hash", .str f.hash),
   ("version", .str f.version),
   ("description", .str f.description)]

/-- Model of `Dependency` dataclass. -/
structure Dependency where
  name : String
  version : String
  installer_path : String
  check_command : String
  required : Bool
deriving Repr

/-- Model of `Dependency.to_dict` (dataclasses.asdict). -/
def Dependency.toDict (d : Dependency) : List (String × PyVal) :=
  [("name", .str d.name),
   ("version", .str d.version),
   ("installer_path", .str d.installer_path),
   ("check_command", .str d.check_command),
   ("required", .bool d.required)]

/-! ## Python string conversions (repr / str / json.dumps)

Modelled for the printable-ASCII fragment actually exercised here: `repr`
escapes the backslash, the chosen quote and the common control characters;
`json.dumps` likewise.  Non-ASCII escaping (`ensure_ascii`) is outside the
fragment used by the claims. -/

/-- Escape one character for Python `repr` of a string quoted by `q`. -/
def pyReprEsc (q : Char) (c : Char) : String :=
  if c = '\\' then "\\\\"
  else if c = q then "\\" ++ q.toString
  else if c = '\n' then "\\n"
  else if c = '\r' then "\\r"
  else if c = '\t' then "\\t"
  else c.toString

/-- Python `repr` of a string: single quotes, switching to double quotes
when the content holds a single quote but no double quote. -/
def pyReprStr (s : String) : String :=
  let q : Char := if s.data.contains '\'' && !(s.data.contains '"') then '"' else '\''
  q.toString ++ String.join (s.data.map (pyReprEsc q)) ++ q.toString

mutual

/-- Python `repr` of a `PyVal`. -/
def pyRepr : PyVal → String
  | .str s => pyReprStr s
  | .int n => toString n
  | .bool b => cond b "True" "False"
  | .none => "None"
  | .list xs => "[" ++ pyReprJoin xs ++ "]"
  | .dict kvs => "\x7b" ++ pyReprJoinKV kvs ++ "\x7d"

/-- Comma-joined `repr`s of list items. -/
def pyReprJoin : List PyVal → String
  | [] => ""
  | [x] => pyRepr x
  | x :: y :: xs => pyRepr x ++ ", " ++ pyReprJoin (y :: xs)

/-- Comma-joined `key: value` `repr`s of dict items, in insertion order. -/
def pyReprJoinKV : List (String × PyVal) → String
  | [] => ""
  | [kv] => pyReprStr kv.1 ++ ": " ++ pyRepr kv.2
  | kv :: kv2 :: kvs => pyReprStr kv.1 ++ ": " ++ pyRepr kv.2 ++ ", " ++ pyReprJoinKV (kv2 :: kvs)

end

/-- Python `str()` of a `PyVal`. -/
def pyStr (v : PyVal) : String :=
  match v with
  | .str s => s
  | v => pyRepr v

/-- Escape one character for `json.dumps` of a string. -/
def jsonEsc (c : Char) : String :=
  if c = '\\' then "\\\\"
  else if c = '"' then "\\\""
  else if c = '\n' then "\\n"
  else if c = '\r' then "\\r"
  else if c = '\t' then "\\t"
  else c.toString

/-- Model of `json.dumps` of a string value. -/
def jsonDumpsStr (s : String) : String :=
  "\"" ++ String.join (s.data.map jsonEsc) ++ "\""

/-! ## ProjectConfig (src/core/models.py) -/

/-- Model of `ProjectConfig` dataclass: the aggregate project description.  The
`created`/`modified` timestamps are plain ISO strings. -/
structure ProjectConfig where
  name : String
  version : String
  author : String
  company : String
  description : String
  copyright : String
  icon_path : String
  output_dir : String
  default_install_dir : String
  python_version : String
  require_admin : Bool
  compression : String
  license_enabled : Bool
  license_text : String
  license_file : String
  create_uninstaller : Bool
  silent_mode : Bool
  overwrite_existing : Bool
  installer_title : String
  installer_style : String
  background_color : String
  text_color : String
  button_color : String
  custom_css : String
  onefile : Bool
  console : Bool
  hidden_imports : List String
  additional_hooks : List String
  exclude_modules : List String
  script_elements : List ScriptElement
  shortcuts : List ShortcutConfig
  registry_entries : List RegistryEntry
  dependencies : List Dependency
  search_paths : List String
  files : List FileEntry
  sign_installer : Bool
  certificate_path : String
  certificate_password : String
  timestamp_server : String
  created : String
  modified : String
deriving Repr

/-! ## Semantics of the generated installer (the template inside
`InstallerGeneratorThread._generate_installer_script`) -/

/-- The data a generated installer program embeds as literals, together
with its `CREATE_UNINSTALLER` constant. -/
structure GenInstaller where
  filesData : List (List (String × PyVal))
  shortcuts : List (List (String × PyVal))
  registryEntries : List (List (String × PyVal))
  scriptElements : List (List (String × PyVal))
  dependencies : List (List (String × PyVal))
  projectName : String
  projectVersion : String
  projectDescription : String
  createUninstaller : Bool
deriving Repr

/-- The embedded content of the installer source produced by
`_generate_installer_script`: serialized project sequences in list order,
`name or "My Application"`, and the constant `CREATE_UNINSTALLER = True`
written literally in the template, independent of the project. -/
def genInstaller (p : ProjectConfig) : GenInstaller :=
  { filesData := p.files.map FileEntry.toDict
    shortcuts := p.shortcuts.map ShortcutConfig.toDict
    registryEntries := p.registry_entries.map RegistryEntry.toDict
    scriptElements := p.script_elements.map ScriptElement.toDict
    dependencies := p.dependencies.map Dependency.toDict
    projectName := if p.name == "" then "My Application" else p.name
    projectVersion := p.version
    projectDescription := p.description
    createUninstaller := true }

/-- Observable actions the generated installer's `InstallThread` performs. -/
inductive InstallAct where
  | makeDirs (path : String)
  | pipInstall (pkg : String)
  | copyFile (src dst : String)
  | removeTree (path : String)
  | copyTree (src dst : String)
  | makeShortcut (linkPath : String) (target : String)
  | regCreateKey (root : String) (key : String)
  | regWrite (root : String) (key : String) (name : PyVal) (vtype : String) (data : PyVal)
  | execPython (body : String)
  | shellRun (cmd : String) (cwd : String)
  | writeFile (path : String) (content : String)
deriving Repr

/-- Filesystem view seen by the generated installer at install time. -/
structure InstFS where
  isFile : String → Bool
  isDir : String → Bool
  pathExists : String → Bool

/-- Model of `os.path.join(a, b)` for a relative second component. -/
def pjoin (a b : String) : String := a ++ "/" ++ b

/-- Model of `os.path.dirname` for forward-slash paths with a non-root directory
part: everything before the final separator (empty when there is none). -/
def dirName (s : String) : String :=
  match (s.data.reverse.dropWhile (fun c => !(c == '/'))) with
  | [] => ""
  | _ :: t => ⟨t.reverse⟩

/-- Model of `InstallThread._copy_file`: reads `source` and `destination` from the
file dict (returning `''` when absent), returns early when either is falsy;
otherwise copies a file with `shutil.copy2` or a directory with
`shutil.copytree` after removing any existing destination. -/
def installCopyFile (fs : InstFS) (installPath : String)
    (fileInfo : List (String × PyVal)) : List InstallAct :=
  let source := dictGetD fileInfo "source" (.str "")
  let dest := dictGetD fileInfo "destination" (.str "")
  if !pyTruthy source || !pyTruthy dest then []
  else
    match source, dest with
    | .str s, .str d =>
      let destPath := pjoin installPath d
      let mk := [InstallAct.makeDirs (dirName destPath)]
      if fs.isFile s then mk ++ [.copyFile s destPath]
      else if fs.isDir s then
        mk ++ (if fs.pathExists destPath then [.removeTree destPath] else [])
           ++ [.copyTree s destPath]
      else mk
    | _, _ => []

/-- The attribute names of `winreg` naming root-key handles. -/
def winregHives : List String :=
  ["HKEY_CLASSES_ROOT", "HKEY_CURRENT_CONFIG", "HKEY_CURRENT_USER",
   "HKEY_DYN_DATA", "HKEY_LOCAL_MACHINE", "HKEY_PERFORMANCE_DATA",
   "HKEY_USERS"]

/-- Python `int()` applied to a `PyVal`, `none` when it raises. -/
def pyToInt (v : PyVal) : Option Int :=
  match v with
  | .int n => some n
  | .bool b => some (cond b 1 0)
  | .str s => (s.trim).toInt?
  | _ => Option.none

/-- Model of `InstallThread._apply_registry`: reads `root`/`key`/`name`/`value`/`type`
from the entry dict with the source's defaults, resolves the root via
`getattr(winreg, root, HKEY_CURRENT_USER)`, creates the key and writes the
value (numeric for `REG_DWORD`, else `str()` as `REG_SZ`).  The whole body
is wrapped in `try/except: pass`, so a raising step yields the actions
performed before the raise. -/
def applyRegistry (re : List (String × PyVal)) : List InstallAct :=
  match dictGetD re "root" (.str "HKEY_CURRENT_USER"),
        dictGetD re "key" (.str "") with
  | .str rootName, .str k =>
    let root := if winregHives.contains rootName then rootName
                else "HKEY_CURRENT_USER"
    let name := dictGetD re "name" (.str "")
    let data := dictGetD re "value" (.str "")
    let vtype := dictGetD re "type" (.str "REG_SZ")
    if pyEqStr vtype "REG_DWORD" then
      match pyToInt data with
      | some n =>
        [.regCreateKey root k, .regWrite root k name "REG_DWORD" (.int n)]
      | _ => [.regCreateKey root k]
    else
      [.regCreateKey root k, .regWrite root k name "REG_SZ" (.str (pyStr data))]
  | _, _ => []

/-- Model of `InstallThread._run_script`: dispatch on the dict's `type` (default
`python`): a truthy `content` is `exec`-ed for `python`, or run through the
shell in the install directory for `cmd`. -/
def runScript (installPath : String)
    (script : List (String × PyVal)) : List InstallAct :=
  let stype := dictGetD script "type" (.str "python")
  let content := dictGetD script "content" (.str "")
  if pyEqStr stype "python" && pyTruthy content then
    match content with
    | .str c => [.execPython c]
    | _ => []
  else if pyEqStr stype "cmd" && pyTruthy content then
    match content with
    | .str c => [.shellRun c installPath]
    | _ => []
  else []

/-- The guard of the post-install loop in the generated `run`:
`script.get('event') == 'post_install'` on the element's dict. -/
def runsPostInstall (script : List (String × PyVal)) : Bool :=
  pyEqStr (dictGetD script "event" .none) "post_install"

/-- The script elements the generated installer actually runs, in list
order: those whose dict passes `runsPostInstall`. -/
def postInstallScripts (scripts : List (List (String × PyVal))) :
    List (List (String × PyVal)) :=
  scripts.filter runsPostInstall

/-! ## Template literal segments

The literal text of the two f-string templates in
`InstallerGeneratorThread._generate_installer_script` and
`_generate_spec_file`, split at the interpolation holes.  Doubled braces of
the f-strings appear here as single (escaped) braces, exactly as in the
emitted text. -/

/-- Literal segment 0 of the installer-source template. -/
def instSeg0 : String :=
  "#!/usr/bin/env python3\n# -*- coding: utf-8 -*-\n\nimport os\nimport sys\nimport shutil\nimport subprocess\nimport winreg\nfrom pathlib import Path\nfrom PyQt6.QtWidgets import (\n    QApplication, QMainWindow, QWidget, QVBoxLayout,\n    QLabel, QPushButton, QProgressBar, QFileDialog, QMessageBox\n)\nfrom PyQt6.QtCore import Qt, QThread, pyqtSignal\n\nFILES_DATA = "

/-- Literal segment 1 of the installer-source template. -/
def instSeg1 : String :=
  "\nSHORTCUTS = "

/-- Literal segment 2 of the installer-source template. -/
def instSeg2 : String :=
  "\nREGISTRY_ENTRIES = "

/-- Literal segment 3 of the installer-source template. -/
def instSeg3 : String :=
  "\nSCRIPT_ELEMENTS = "

/-- Literal segment 4 of the installer-source template. -/
def instSeg4 : String :=
  "\nDEPENDENCIES = "

/-- Literal segment 5 of the installer-source template. -/
def instSeg5 : String :=
  "\n\nPROJECT_NAME = "

/-- Literal segment 6 of the installer-source template. -/
def instSeg6 : String :=
  "\nPROJECT_VERSION = "

/-- Literal segment 7 of the installer-source template. -/
def instSeg7 : String :=
  "\nPROJECT_DESCRIPTION = "

/-- The uninstaller constant line the template pins to `True`. -/
def cuConstLine : String :=
  "CREATE_UNINSTALLER = True"

/-- Tail of installer-template segment 8, after the pinned constant. -/
def instSeg8rest : String :=
  "\n\n\nclass InstallThread(QThread):\n    \"\"\"Worker thread for installation process\"\"\"\n    progress = pyqtSignal(int, str)\n    finished_signal = pyqtSignal(bool, str)\n\n    def __init__(self, install_path):\n        super().__init__()\n        self.install_path = install_path\n\n    def run(self):\n        try:\n            # Create install directory\n            os.makedirs(self.install_path, exist_ok=True)\n            self.progress.emit(10, \"Created installation directory\")\n\n            # Install dependencies\n            if DEPENDENCIES:\n                self.progress.emit(20, \"Installing dependencies...\")\n                for dep in DEPENDENCIES:\n                    self._install_dependency(dep)\n\n            # Copy files\n            self.progress.emit(40, \"Copying files...\")\n            for file_info in FILES_DATA:\n                self._copy_file(file_info)\n\n            # Create shortcuts\n            self.progress.emit(60, \"Creating shortcuts...\")\n            for shortcut in SHORTCUTS:\n                self._create_shortcut(shortcut)\n\n            # Apply registry entries\n            self.progress.emit(70, \"Applying registry entries...\")\n            for reg_entry in REGISTRY_ENTRIES:\n                self._apply_registry(reg_entry)\n\n            # Run post-install scripts\n            self.progress.emit(80, \"Running post-install scripts...\")\n            for script in SCRIPT_ELEMENTS:\n                if script.get('event') == 'post_install':\n                    self._run_script(script)\n\n            # Create uninstaller\n            if CREATE_UNINSTALLER:\n                self.progress.emit(90, \"Creating uninstaller...\")\n                self._create_uninstaller()\n\n            self.progress.emit(100, \"Installation complete!\")\n            self.finished_signal.emit(True, \"Installation completed successfully!\")\n\n        except Exception as e:\n            self.finished_signal.emit(False, f\"Installation failed: \x7bstr(e)\x7d\")\n\n    def _install_dependency(self, dep):\n        \"\"\"Install a dependency using pip or system command\"\"\"\n        dep_type = dep.get('type', 'pip')\n        name = dep.get('name', '')\n        \n        if dep_type == 'pip' and name:\n            subprocess.run([sys.executable, '-m', 'pip', 'install', name], \n                         check=True, capture_output=True)\n\n    def _copy_file(self, file_info):\n        \"\"\"Copy a file to the installation directory\"\"\"\n        source = file_info.get('source', '')\n        dest = file_info.get('destination', '')\n        \n        if not source or not dest:\n            return\n            \n        dest_path = os.path.join(self.install_path, dest)\n        os.makedirs(os.path.dirname(dest_path), exist_ok=True)\n        \n        if os.path.isfile(source):\n            shutil.copy2(source, dest_path)\n        elif os.path.isdir(source):\n            if os.path.exists(dest_path):\n                shutil.rmtree(dest_path)\n            shutil.copytree(source, dest_path)\n\n    def _create_shortcut(self, shortcut):\n        \"\"\"Create a Windows shortcut\"\"\"\n        try:\n            import win32com.client\n            shell = win32com.client.Dispatch(\"WScript.Shell\")\n            \n            name = shortcut.get('name', '')\n            target = shortcut.get('target', '')\n            location = shortcut.get('location', 'desktop')\n            \n            if location == 'desktop':\n                shortcut_path = os.path.join(os.path.expanduser('~'), 'Desktop', f\"\x7bname\x7d.lnk\")\n            elif location == 'start_menu':\n                shortcut_path = os.path.join(os.environ['APPDATA'], \n                                            'Microsoft', 'Windows', 'Start Menu', \n                                            'Programs', f\"\x7bname\x7d.lnk\")\n            else:\n                return\n            \n            target_path = os.path.join(self.install_path, target)\n            link = shell.CreateShortCut(shortcut_path)\n            link.Targetpath = target_path\n            link.WorkingDirectory = os.path.dirname(target_path)\n            link.save()\n        except ImportError:\n            pass  # win32com not available\n\n    def _apply_registry(self, reg_entry):\n        \"\"\"Apply a registry entry\"\"\"\n        try:\n            root = reg_entry.get('root', 'HKEY_CURRENT_USER')\n            key_path = reg_entry.get('key', '')\n            value_name = reg_entry.get('name', '')\n            value_data = reg_entry.get('value', '')\n            value_type = reg_entry.get('type', 'REG_SZ')\n            \n            root_key = getattr(winreg, root, winreg.HKEY_CURRENT_USER)\n            \n            key = winreg.CreateKey(root_key, key_path)\n            \n            if value_type == 'REG_DWORD':\n                winreg.SetValueEx(key, value_name, 0, winreg.REG_DWORD, int(value_data))\n            else:\n                winreg.SetValueEx(key, value_name, 0, winreg.REG_SZ, str(value_data))\n            \n            winreg.CloseKey(key)\n        except Exception:\n            pass  # Silently fail on registry errors\n\n    def _run_script(self, script):\n        \"\"\"Run a post-install script\"\"\"\n        script_type = script.get('type', 'python')\n        content = script.get('content', '')\n        \n        if script_type == 'python' and content:\n            exec(content)\n        elif script_type == 'cmd' and content:\n            subprocess.run(content, shell=True, cwd=self.install_path)\n\n    def _create_uninstaller(self):\n        \"\"\"Create an uninstaller executable\"\"\"\n        uninstall_script = f'''\nimport os\nimport sys\nimport shutil\nfrom PyQt6.QtWidgets import QApplication, QMessageBox\n\ndef uninstall():\n    reply = QMessageBox.question(None, \"Uninstall\", \n                                \"Are you sure you want to uninstall \x7bPROJECT_NAME\x7d?\",\n                                QMessageBox.StandardButton.Yes | QMessageBox.StandardButton.No)\n    \n    if reply == QMessageBox.StandardButton.Yes:\n        try:\n            install_dir = r\"\x7bself.install_path\x7d\"\n            if os.path.exists(install_dir):\n                shutil.rmtree(install_dir)\n            QMessageBox.information(None, \"Success\", \"Uninstallation complete!\")\n        except Exception as ex:\n            QMessageBox.critical(None, \"Error\", f\"Uninstallation failed: \x7b\x7bex\x7d\x7d\")\n\nif __name__ == \"__main__\":\n    app = QApplication(sys.argv)\n    uninstall()\n'''\n        uninstall_path = os.path.join(self.install_path, \"uninstall.py\")\n        with open(uninstall_path, 'w') as f:\n            f.write(uninstall_script)\n\n\nclass InstallerWindow(QMainWindow):\n    def __init__(self):\n        super().__init__()\n        self.setWindowTitle(f\"\x7bPROJECT_NAME\x7d Setup\")\n        self.setFixedSize(580, 420)\n        self.install_thread = None\n\n        central = QWidget()\n        self.setCentralWidget(central)\n        layout = QVBoxLayout(central)\n        layout.setSpacing(15)\n        layout.setContentsMargins(30, 30, 30, 30)\n\n        title = QLabel(f\"<h2>\x7bPROJECT_NAME\x7d</h2><h4>Version \x7bPROJECT_VERSION\x7d</h4>\")\n        title.setAlignment(Qt.AlignmentFlag.AlignCenter)\n        layout.addWidget(title)\n\n        if PROJECT_DESCRIPTION:\n            desc = QLabel(PROJECT_DESCRIPTION)\n            desc.setWordWrap(True)\n            desc.setAlignment(Qt.AlignmentFlag.AlignCenter)\n            layout.addWidget(desc)\n\n        layout.addStretch()\n\n        self.install_btn = QPushButton(\"Install\")\n        self.install_btn.setMinimumHeight(40)\n        self.install_btn.clicked.connect(self.install)\n        layout.addWidget(self.install_btn)\n\n        self.cancel_btn = QPushButton(\"Cancel\")\n        self.cancel_btn.setMinimumHeight(40)\n        self.cancel_btn.clicked.connect(self.close)\n        layout.addWidget(self.cancel_btn)\n\n        self.progress = QProgressBar()\n        self.progress.setVisible(False)\n        self.progress.setMinimumHeight(30)\n        layout.addWidget(self.progress)\n\n        self.status = QLabel(\"\")\n        self.status.setAlignment(Qt.AlignmentFlag.AlignCenter)\n        layout.addWidget(self.status)\n\n    def install(self):\n        default_path = os.path.join(\n            os.environ.get(\"ProgramFiles\", \"C:\\\\Program Files\"), \n            PROJECT_NAME.replace(\" \", \"_\")\n        )\n        \n        path = QFileDialog.getExistingDirectory(\n            self,\n            \"Select Install Location\",\n            default_path\n        )\n        \n        if not path:\n            return\n\n        self.install_btn.setEnabled(False)\n        self.cancel_btn.setEnabled(False)\n        self.progress.setVisible(True)\n        self.progress.setValue(0)\n\n        self.install_thread = InstallThread(path)\n        self.install_thread.progress.connect(self.update_progress)\n        self.install_thread.finished_signal.connect(self.install_finished)\n        self.install_thread.start()\n\n    def update_progress(self, value, message):\n        self.progress.setValue(value)\n        self.status.setText(message)\n\n    def install_finished(self, success, message):\n        if success:\n            QMessageBox.information(self, \"Success\", message)\n            self.close()\n        else:\n            QMessageBox.critical(self, \"Error\", message)\n            self.install_btn.setEnabled(True)\n            self.cancel_btn.setEnabled(True)\n            self.progress.setVisible(False)\n\n\ndef main():\n    app = QApplication(sys.argv)\n    app.setStyle(\"Fusion\")\n    win = InstallerWindow()\n    win.show()\n    sys.exit(app.exec())\n\n\nif __name__ == \"__main__\":\n    main()\n"

/-- Literal segment 8 of the installer-source template. -/
def instSeg8 : String :=
  "\n\n" ++ cuConstLine ++ instSeg8rest

/-- Literal segment 0 of the build-spec template (ends just after
the opening quote of the EXE `name=` argument). -/
def specSeg0 : String :=
  "# -*- mode: python ; coding: utf-8 -*-\n\nblock_cipher = None\n\na = Analysis(\n    ['installer.py'],\n    pathex=[],\n    binaries=[],\n    datas=[],\n    hiddenimports=['win32com.client', 'winreg'],\n    hookspath=[],\n    hooksconfig=\x7b\x7d,\n    runtime_hooks=[],\n    excludes=[],\n    win_no_prefer_redirects=False,\n    win_private_assemblies=False,\n    cipher=block_cipher,\n    noarchive=False,\n)\n\npyz = PYZ(a.pure, a.zipped_data, cipher=block_cipher)\n\nexe = EXE(\n    pyz,\n    a.scripts,\n    a.binaries,\n    a.zipfiles,\n    a.datas,\n    [],\n    name='"

/-- Tail of build-spec segment 1, after the `_Setup` suffix. -/
def specSeg1rest : String :=
  "',\n    debug=False,\n    bootloader_ignore_signals=False,\n    strip=False,\n    upx=True,\n    upx_exclude=[],\n    runtime_tmpdir=None,\n    console=False,\n    disable_windowed_traceback=False,\n    target_arch=None,\n    codesign_identity=None,\n    entitlements_file=None,\n)\n"

/-- Literal segment 1 of the build-spec template: the `_Setup`
suffix of the executable name followed by the rest of the spec. -/
def specSeg1 : String :=
  "_Setup" ++ specSeg1rest

/-- Literal segment 0 of the uninstall-program template. -/
def uninstSeg0 : String :=
  "\nimport os\nimport sys\nimport shutil\nfrom PyQt6.QtWidgets import QApplication, QMessageBox\n\ndef uninstall():\n    reply = QMessageBox.question(None, \"Uninstall\", \n                                \"Are you sure you want to uninstall "

/-- Literal segment 1 of the uninstall-program template. -/
def uninstSeg1 : String :=
  "?\",\n                                QMessageBox.StandardButton.Yes | QMessageBox.StandardButton.No)\n    \n    if reply == QMessageBox.StandardButton.Yes:\n        try:\n            install_dir = r\""

/-- Literal segment 2 of the uninstall-program template. -/
def uninstSeg2 : String :=
  "\"\n            if os.path.exists(install_dir):\n                shutil.rmtree(install_dir)\n            QMessageBox.information(None, \"Success\", \"Uninstallation complete!\")\n        except Exception as ex:\n            QMessageBox.critical(None, \"Error\", f\"Uninstallation failed: \x7bex\x7d\")\n\nif __name__ == \"__main__\":\n    app = QApplication(sys.argv)\n    uninstall()\n"

/-! ## Synthesized artifact text -/

/-- Model of `repr([d1, d2, ...])` for a list of dicts, as embedded by the
generator. -/
def reprDictList (ds : List (List (String × PyVal))) : String :=
  pyRepr (.list (ds.map PyVal.dict))

/-- Model of `InstallerGeneratorThread._generate_installer_script`: the complete
source text of the generated installer program. -/
def genInstallerSource (p : ProjectConfig) : String :=
  let g := genInstaller p
  instSeg0 ++ reprDictList g.filesData
    ++ instSeg1 ++ reprDictList g.shortcuts
    ++ instSeg2 ++ reprDictList g.registryEntries
    ++ instSeg3 ++ reprDictList g.scriptElements
    ++ instSeg4 ++ reprDictList g.dependencies
    ++ instSeg5 ++ jsonDumpsStr g.projectName
    ++ instSeg6 ++ jsonDumpsStr g.projectVersion
    ++ instSeg7 ++ jsonDumpsStr g.projectDescription
    ++ instSeg8

/-- Model of `str.replace` with single-character needle and replacement: substitute
every occurrence of `a` by `b`. -/
def pyReplaceChar (s : String) (a b : Char) : String :=
  ⟨s.data.map (fun c => if c = a then b else c)⟩

/-- The `name_safe` computed by `_generate_spec_file`:
`name.replace(" ", "_").replace("-", "_")`. -/
def specNameSafe (name : String) : String :=
  pyReplaceChar (pyReplaceChar name ' ' '_') '-' '_'

/-- Model of `InstallerGeneratorThread._generate_spec_file`: the PyInstaller spec
text. -/
def genSpecSource (p : ProjectConfig) : String :=
  specSeg0 ++ specNameSafe p.name ++ specSeg1

/-- The executable artifact name declared by the generated spec's
`EXE(name=...)` argument. -/
def specExeName (p : ProjectConfig) : String :=
  specNameSafe p.name ++ "_Setup"

/-- The text `_create_uninstaller` writes to `uninstall.py`: the inner
f-string template with the project name and the raw install path
substituted. -/
def uninstallSource (projectName installPath : String) : String :=
  uninstSeg0 ++ projectName ++ uninstSeg1 ++ installPath ++ uninstSeg2

/-! ## The generated installer's run loop -/

/-- Environment of a generated-installer run: the install-time filesystem
view, whether `win32com` is importable, the shortcut base directories, and
success flags for each failable pass (a failing pass raises; its partially
performed actions are not tracked).  `errText` is the raising exception's
message. -/
structure InstallEnv where
  fs : InstFS
  hasWin32 : Bool
  desktopDir : String
  startMenuDir : String
  mkdirsOk : Bool
  pipOk : Bool
  copyOk : Bool
  shortcutsOk : Bool
  scriptsOk : Bool
  uninstOk : Bool
  errText : String

/-- Model of `InstallThread._install_dependency`: `pip install` for a truthy name
with the (always defaulted) `pip` type. -/
def installDep (dep : List (String × PyVal)) : List InstallAct :=
  let dtype := dictGetD dep "type" (.str "pip")
  let name := dictGetD dep "name" (.str "")
  if pyEqStr dtype "pip" && pyTruthy name then
    match name with
    | .str s => [.pipInstall s]
    | _ => []
  else []

/-- Model of `InstallThread._create_shortcut`: resolves the `.lnk` path from the
dict's `location` (default `desktop`) and links it to the target joined
under the install path; with `win32com` missing the `ImportError` is
swallowed and nothing happens.  String fields are read as in the source
(`get` with the source's defaults). -/
def createShortcut (env : InstallEnv) (installPath : String)
    (sc : List (String × PyVal)) : List InstallAct :=
  if !env.hasWin32 then []
  else
    let name := pyStr (dictGetD sc "name" (.str ""))
    let target := pyStr (dictGetD sc "target" (.str ""))
    let location := dictGetD sc "location" (.str "desktop")
    if pyEqStr location "desktop" then
      [.makeShortcut (pjoin env.desktopDir (name ++ ".lnk")) (pjoin installPath target)]
    else if pyEqStr location "start_menu" then
      [.makeShortcut (pjoin env.startMenuDir (name ++ ".lnk")) (pjoin installPath target)]
    else []

/-- Result of a generated-installer run: the actions performed, the
progress events `(percent, message)` in emission order, and the payload of
the single `finished_signal` emission. -/
structure InstallRun where
  acts : List InstallAct
  events : List (Nat × String)
  success : Bool
  message : String
deriving Repr

/-- A failed run: the actions and events so far, and the message built by
the generated `run`'s exception handler. -/
def installFail (acts : List InstallAct) (events : List (Nat × String))
    (errText : String) : InstallRun :=
  { acts := acts, events := events, success := false,
    message := "Installation failed: " ++ errText }

/-- The generated `InstallThread.run`: create the install directory,
install dependencies, copy files, create shortcuts, apply registry entries,
run post-install scripts, create the uninstaller when the embedded constant
asks for one, then signal success; any raising pass aborts into the single
failure signal. -/
def installRun (env : InstallEnv) (g : GenInstaller)
    (installPath : String) : InstallRun :=
  if !env.mkdirsOk then installFail [] [] env.errText
  else
    let acts0 := [InstallAct.makeDirs installPath]
    let evs0 := [(10, "Created installation directory")]
    let evs1 := evs0 ++
      (if g.dependencies.isEmpty then [] else [(20, "Installing dependencies...")])
    if !g.dependencies.isEmpty && !env.pipOk then installFail acts0 evs1 env.errText
    else
      let acts1 := acts0 ++ g.dependencies.flatMap installDep
      let evs2 := evs1 ++ [(40, "Copying files...")]
      if !env.copyOk then installFail acts1 evs2 env.errText
      else
        let acts2 := acts1 ++ g.filesData.flatMap (installCopyFile env.fs installPath)
        let evs3 := evs2 ++ [(60, "Creating shortcuts...")]
        if !env.shortcutsOk then installFail acts2 evs3 env.errText
        else
          let acts3 := acts2 ++ g.shortcuts.flatMap (createShortcut env installPath)
          let evs4 := evs3 ++ [(70, "Applying registry entries...")]
          let acts4 := acts3 ++ g.registryEntries.flatMap applyRegistry
          let evs5 := evs4 ++ [(80, "Running post-install scripts...")]
          if !env.scriptsOk then installFail acts4 evs5 env.errText
          else
            let acts5 := acts4 ++
              (postInstallScripts g.scriptElements).flatMap (runScript installPath)
            let evs6 := evs5 ++
              (if g.createUninstaller then [(90, "Creating uninstaller...")] else [])
            if g.createUninstaller && !env.uninstOk then
              installFail acts5 evs6 env.errText
            else
              let acts6 := acts5 ++
                (if g.createUninstaller then
                  [.writeFile (pjoin installPath "uninstall.py")
                    (uninstallSource g.projectName installPath)]
                 else [])
              { acts := acts6
                events := evs6 ++ [(100, "Installation complete!")]
                success := true
                message := "Installation completed successfully!" }

/-! ## Validator and helpers (src/utils/helpers.py) -/

/-- Filesystem view used by `validate_project`: existence plus the
write-probe (create and delete a marker file) outcome per directory. -/
structure ProbeFS where
  pathExists : String → Bool
  writable : String → Bool

/-- Whether `pre` is a prefix of `l` (Boolean, by character). -/
def isPrefOf : List Char → List Char → Bool
  | [], _ => true
  | _ :: _, [] => false
  | a :: as, b :: bs => a == b && isPrefOf as bs

/-- Whether `needle` occurs inside `hay` (Boolean, by character). -/
def hasInfix (hay needle : List Char) : Bool :=
  match hay with
  | [] => needle.isEmpty
  | _ :: t => isPrefOf needle hay || hasInfix t needle

/-- Bool-valued substring test: `needle in hay` on Python strings. -/
def containsSub (hay needle : String) : Bool :=
  hasInfix hay.data needle.data

/-- Split a character list on dots (`"a.b".split('.')` shape: one group
per dot-separated run, empty groups preserved). -/
def splitDots (cs : List Char) : List (List Char) :=
  match cs with
  | [] => [[]]
  | c :: rest =>
    let r := splitDots rest
    if c = '.' then [] :: r
    else
      match r with
      | g :: gs => (c :: g) :: gs
      | [] => [[c]]

/-- The check `re.match(r'^\d+(\.\d+)*$', version)`: the string is a
nonempty all-digit group, optionally followed by further dot-separated
nonempty all-digit groups — equivalently, every dot-separated group is
nonempty and all digits.  (The regex-`$`-before-trailing-newline and
Unicode-digit subtleties of Python `re` do not arise for the version
strings considered.) -/
def versionFormatOk (s : String) : Bool :=
  (splitDots s.data).all (fun g => !g.isEmpty && g.all Char.isDigit)

/-- Strip the characters of `cs` from both ends of `s` (Python
`str.strip(chars)`). -/
def pyStripChars (s : String) (cs : List Char) : String :=
  ⟨((s.data.dropWhile cs.contains).reverse.dropWhile cs.contains).reverse⟩

/-- Python `str.strip()` with no argument: strip the (ASCII) whitespace
characters from both ends. -/
def pyStripWs (s : String) : String :=
  pyStripChars s [' ', '\t', '\n', '\r', '\x0b', '\x0c']

/-- Result triple of `validate_project`. -/
structure ValResult where
  is_valid : Bool
  errors : List String
  warnings : List String
deriving Repr

/-- Model of `validate_project` from helpers.py: required-field and writability
errors, then the independent warnings, in source order; valid iff no
errors. -/
def validateProject (fs : ProbeFS) (p : ProjectConfig) : ValResult :=
  let errors :=
    (if p.name == "" || pyStripWs p.name == "" then ["Project name is required"] else [])
    ++ (if p.version == "" || pyStripWs p.version == "" then ["Version is required"] else [])
    ++ (if p.output_dir == "" then ["Output directory is required"]
        else if fs.pathExists p.output_dir && !fs.writable p.output_dir then
          ["Output directory is not writable"]
        else [])
  let warnings :=
    (if !(p.icon_path == "") && !fs.pathExists p.icon_path then
      ["Icon file not found: " ++ p.icon_path] else [])
    ++ (if p.license_enabled && !(p.license_file == "")
           && !fs.pathExists p.license_file then
      ["License file not found: " ++ p.license_file] else [])
    ++ (if p.sign_installer && !(p.certificate_path == "")
           && !fs.pathExists p.certificate_path then
      ["Certificate file not found: " ++ p.certificate_path] else [])
    ++ p.files.filterMap (fun f =>
        if !f.is_directory && !fs.pathExists f.source_path then
          some ("File not found: " ++ f.source_path)
        else Option.none)
    ++ (if !(p.version == "") && !versionFormatOk p.version then
      ["Version format should be like '1.0.0': " ++ p.version] else [])
    ++ (if !(p.default_install_dir == "")
           && !containsSub p.default_install_dir "\x7bname\x7d" then
      ["Default install directory should contain \x7bname\x7d placeholder"] else [])
  { is_valid := errors.isEmpty, errors := errors, warnings := warnings }


/-- Model of `sanitize_filename` from helpers.py: replace each of the nine invalid
characters by an underscore, strip leading/trailing dots and spaces, and
fall back to `"unnamed"` when empty. -/
def sanitizeFilename (filename : String) : String :=
  let invalid : List Char := ['<', '>', ':', '"', '/', '\\', '|', '?', '*']
  let f1 := invalid.foldl (fun acc c => pyReplaceChar acc c '_') filename
  let f2 := pyStripChars f1 ['.', ' ']
  if f2 == "" then "unnamed" else f2

/-! ## Build orchestrator (InstallerGeneratorThread.run) -/

/-- Model of `s.endswith(suffix)` by character. -/
def pyEndsWith (s suffix : String) : Bool :=
  isPrefOf suffix.data.reverse s.data.reverse

/-- Events the orchestrator emits: its three Qt signals. -/
inductive GenEvent where
  | progress (pct : Nat) (msg : String)
  | log (msg : String)
  | finished (msg : String) (success : Bool)
deriving Repr

/-- True exactly on the terminal `finished` signal. -/
def GenEvent.isOutcome : GenEvent → Bool
  | .finished _ _ => true
  | _ => false

/-- True exactly on a `log_message` signal. -/
def GenEvent.isLog : GenEvent → Bool
  | .log _ => true
  | _ => false

/-- True exactly on a `progress` signal. -/
def GenEvent.isProgress : GenEvent → Bool
  | .progress _ _ => true
  | _ => false

/-- Environment of one orchestrator run: outcomes of every
filesystem/subprocess step it performs.  `Except` values carry the raised
exception's message. -/
structure OrchEnv where
  mkdtempRes : Except String String
  writePyRes : Except String Unit
  writeSpecRes : Except String Unit
  runRes : Except String Unit
  returncode : Int
  stderr : String
  distExists : Bool
  distFiles : List String
  outDirExists : Bool
  makedirsRes : Except String Unit
  moveRes : Except String Unit
  tempStillExists : Bool
  rmtreeRes : Except String Unit

/-- Model of `InstallerGeneratorThread._run_pyinstaller`: its emitted events and the
exception message when it raises. -/
def runPyinstaller (env : OrchEnv) (tempDir outputPath : String) :
    List GenEvent × Option String :=
  let evs := [GenEvent.log "Running PyInstaller...",
              GenEvent.progress 40 "Running PyInstaller..."]
  match env.runRes with
  | .error e => (evs, some e)
  | .ok _ =>
    let evs := evs ++ [GenEvent.progress 80 "PyInstaller finished, checking output..."]
    if env.returncode != 0 then
      (evs ++ [.log ("PyInstaller stderr: " ++ env.stderr)],
       some ("PyInstaller failed: " ++ env.stderr))
    else
      let distDir := pjoin tempDir "dist"
      if !env.distExists then
        (evs, some ("Dist directory not found: " ++ distDir))
      else
        let listingText := pyRepr (.list (env.distFiles.map PyVal.str))
        let evs := evs ++ [.log ("Files in dist: " ++ listingText)]
        match env.distFiles.filter (fun f => pyEndsWith f ".exe") with
        | [] =>
          (evs, some ("No .exe file found in " ++ distDir
            ++ ". Files present: " ++ listingText))
        | x :: _ =>
          let generatedExe := pjoin distDir x
          let evs := evs ++ [.log ("Found generated installer: " ++ generatedExe)]
          let outDir := dirName outputPath
          match (if !(outDir == "") && !env.outDirExists
                 then env.makedirsRes else .ok ()) with
          | .error e => (evs, some e)
          | .ok _ =>
            match env.moveRes with
            | .error e => (evs, some e)
            | .ok _ =>
              (evs ++ [.log ("Installer created → " ++ outputPath),
                       .progress 95 "Installer file moved to output location"],
               Option.none)

/-- The body of the orchestrator's `try` block after the scratch directory
exists: the events it emits and the exception that escapes it, if any. -/
def generatorBody (env : OrchEnv) (tempDir outputPath : String) :
    List GenEvent × Option String :=
  match env.writePyRes with
  | .error e => ([], some e)
  | .ok _ =>
    let evs := [GenEvent.progress 20 "Generated installer script"]
    match env.writeSpecRes with
    | .error e => (evs, some e)
    | .ok _ =>
      let evs := evs ++ [GenEvent.progress 35 "Generated PyInstaller spec"]
      let (pevs, exc) := runPyinstaller env tempDir outputPath
      match exc with
      | some e => (evs ++ pevs, some e)
      | Option.none =>
        (evs ++ pevs
          ++ [.progress 100 "Installer build completed",
              .log "Installer generation successful",
              .finished outputPath true],
         Option.none)

/-- Result of one orchestrator run: the full event trace in emission order
and whether the scratch workspace was removed. -/
structure OrchRun where
  events : List GenEvent
  workspaceRemoved : Bool
deriving Repr

/-- Model of `InstallerGeneratorThread.run`: the `try` body, the `except` handler
(an error log followed by the failure outcome), and the `finally` cleanup
(remove the scratch directory when one was created and still exists,
logging either the success or the warning — after the outcome signal). -/
def generatorRun (env : OrchEnv) (outputPath : String) : OrchRun :=
  let evs0 := [GenEvent.progress 0 "Starting installer generation...",
               GenEvent.log "=== Installer Generation Started ==="]
  match env.mkdtempRes with
  | .error e =>
    { events := evs0
        ++ [.log ("ERROR: Installer generation failed: " ++ e),
            .finished ("Installer generation failed: " ++ e) false]
      workspaceRemoved := false }
  | .ok tempDir =>
    let evs := evs0 ++ [GenEvent.progress 5 ("Created temp directory: " ++ tempDir)]
    let (bodyEvs, exc) := generatorBody env tempDir outputPath
    let handlerEvs :=
      match exc with
      | Option.none => []
      | some e =>
        [GenEvent.log ("ERROR: Installer generation failed: " ++ e),
         GenEvent.finished ("Installer generation failed: " ++ e) false]
    let (cleanEvs, removed) :=
      if env.tempStillExists then
        match env.rmtreeRes with
        | .ok _ => ([GenEvent.log ("Cleaned up temp directory: " ++ tempDir)], true)
        | .error e =>
          ([GenEvent.log ("Warning: Could not clean temp directory: " ++ e)], false)
      else ([], false)
    { events := evs ++ bodyEvs ++ handlerEvs ++ cleanEvs
      workspaceRemoved := removed }

/-- The first outcome event's payload in a trace. -/
def firstOutcome (evs : List GenEvent) : Option (String × Bool) :=
  evs.findSome? (fun e => match e with
    | .finished m s => some (m, s)
    | _ => Option.none)

/-- The events emitted strictly after the first outcome event. -/
def eventsAfterOutcome (evs : List GenEvent) : List GenEvent :=
  (evs.dropWhile (fun e => !e.isOutcome)).drop 1

/-- Whether the last event of a trace is the outcome event. -/
def outcomeLast (evs : List GenEvent) : Bool :=
  match evs.getLast? with
  | some (.finished _ _) => true
  | _ => false

/-! ## Persisted project documents (models.py from_dict / to_dict,
project_manager.py save_project)

A persisted document is the JSON object written by `save_project`; its
shape is `ProjectConfig.to_dict`'s output.  Documents are modelled as a
structure whose top-level fields are optional (older documents may lack
any of them; `from_dict` backfills).  Sub-entry dicts always carry every
key in documents produced by the serializers, and the dataclasses
`ShortcutConfig`/`RegistryEntry`/`Dependency` are rebuilt by
`cls(**data)` with no `__post_init__`, so their document form is the
record itself. -/

/-- Ambient values `from_dict` and the dataclass defaults consult: the
current clock (ISO timestamp and year) for `created`/`modified`/`copyright`,
the interpreter version for `python_version`, and the next fresh
8-character uuid slice for regenerated script-element ids. -/
structure ModelEnv where
  nowIso : String
  nowYear : String
  pyVersion : String
  uuid8 : String

/-- Filesystem view consulted by `FileEntry.__post_init__` when a document
is read: existence and content digest (empty on read failure) per path. -/
structure HashFS where
  pathExists : String → Bool
  hashOf : String → String

/-- Model of `FileEntry.calculate_hash`: empty for directories and missing sources,
otherwise the digest (empty when hashing raised). -/
def calcHash (hfs : HashFS) (sourcePath : String) (isDir : Bool) : String :=
  if isDir || !hfs.pathExists sourcePath then "" else hfs.hashOf sourcePath

/-- Model of `FileEntry.from_dict`, i.e. `cls(**data)` with `__post_init__`: an
empty hash is recomputed when the source exists and the entry is not a
directory. -/
def FileEntry.fromDict (hfs : HashFS) (f : FileEntry) : FileEntry :=
  if f.hash == "" && hfs.pathExists f.source_path && !f.is_directory then
    { f with hash := calcHash hfs f.source_path f.is_directory }
  else f

/-- The document form of a `ScriptElement`: `to_dict` stores the enum's
string value in `type`. -/
structure ScriptElementDoc where
  type : String
  name : String
  parameters : List (String × PyVal)
  id : String
  enabled : Bool
  critical : Bool
deriving Repr

/-- Model of `ScriptElement.to_dict` viewed as a typed document. -/
def ScriptElement.toDoc (e : ScriptElement) : ScriptElementDoc :=
  { type := e.type.value, name := e.name, parameters := e.parameters,
    id := e.id, enabled := e.enabled, critical := e.critical }

/-- Model of `ScriptElement.from_dict`: `ScriptElementType(data["type"])` raises on
an unknown value (`none` here); construction then runs `__post_init__`,
which replaces an empty id by `f"{type.value}_{uuid4.hex[:8]}"`. -/
def ScriptElement.fromDoc (env : ModelEnv) (d : ScriptElementDoc) :
    Option ScriptElement :=
  (ScriptElementType.ofValue d.type).map (fun t =>
    let e : ScriptElement :=
      { type := t, name := d.name, parameters := d.parameters,
        id := d.id, enabled := d.enabled, critical := d.critical }
    if e.id == "" then { e with id := t.value ++ "_" ++ env.uuid8 } else e)

/-- The list comprehension `[f(e) for e in l]` over a fallible
per-element read: `none` as soon as one element raises. -/
def mapOption (f : α → Option β) : List α → Option (List β)
  | [] => some []
  | a :: as =>
    match f a, mapOption f as with
    | some b, some bs => some (b :: bs)
    | _, _ => Option.none

/-- A persisted project document: `ProjectConfig.to_dict`'s object shape
with every top-level key optional. -/
structure ProjectDoc where
  name : Option String
  version : Option String
  author : Option String
  company : Option String
  description : Option String
  copyright : Option String
  icon_path : Option String
  output_dir : Option String
  default_install_dir : Option String
  python_version : Option String
  require_admin : Option Bool
  compression : Option String
  license_enabled : Option Bool
  license_text : Option String
  license_file : Option String
  create_uninstaller : Option Bool
  silent_mode : Option Bool
  overwrite_existing : Option Bool
  installer_title : Option String
  installer_style : Option String
  background_color : Option String
  text_color : Option String
  button_color : Option String
  custom_css : Option String
  onefile : Option Bool
  console : Option Bool
  hidden_imports : Option (List String)
  additional_hooks : Option (List String)
  exclude_modules : Option (List String)
  script_elements : Option (List ScriptElementDoc)
  shortcuts : Option (List ShortcutConfig)
  registry_entries : Option (List RegistryEntry)
  dependencies : Option (List Dependency)
  search_paths : Option (List String)
  files : Option (List FileEntry)
  sign_installer : Option Bool
  certificate_path : Option String
  certificate_password : Option String
  timestamp_server : Option String
  created : Option String
  modified : Option String

/-- Model of `ProjectConfig.to_dict`: every key present, sub-entries serialized in
list order. -/
def ProjectConfig.toDoc (p : ProjectConfig) : ProjectDoc :=
  { name := some p.name, version := some p.version, author := some p.author,
    company := some p.company, description := some p.description,
    copyright := some p.copyright, icon_path := some p.icon_path,
    output_dir := some p.output_dir,
    default_install_dir := some p.default_install_dir,
    python_version := some p.python_version,
    require_admin := some p.require_admin, compression := some p.compression,
    license_enabled := some p.license_enabled,
    license_text := some p.license_text, license_file := some p.license_file,
    create_uninstaller := some p.create_uninstaller,
    silent_mode := some p.silent_mode,
    overwrite_existing := some p.overwrite_existing,
    installer_title := some p.installer_title,
    installer_style := some p.installer_style,
    background_color := some p.background_color,
    text_color := some p.text_color, button_color := some p.button_color,
    custom_css := some p.custom_css, onefile := some p.onefile,
    console := some p.console, hidden_imports := some p.hidden_imports,
    additional_hooks := some p.additional_hooks,
    exclude_modules := some p.exclude_modules,
    script_elements := some (p.script_elements.map ScriptElement.toDoc),
    shortcuts := some p.shortcuts,
    registry_entries := some p.registry_entries,
    dependencies := some p.dependencies,
    search_paths := some p.search_paths, files := some p.files,
    sign_installer := some p.sign_installer,
    certificate_path := some p.certificate_path,
    certificate_password := some p.certificate_password,
    timestamp_server := some p.timestamp_server,
    created := some p.created, modified := some p.modified }

/-- Model of `ProjectConfig.from_dict`: rebuild sub-entry lists (empty when the key
is absent), apply the explicit backfills for older documents, and let the
dataclass defaults fill every other missing field.  `none` when a script
element's `type` value is unknown (the `ScriptElementType(...)` call
raises). -/
def ProjectConfig.fromDoc (env : ModelEnv) (hfs : HashFS) (d : ProjectDoc) :
    Option ProjectConfig :=
  match mapOption (ScriptElement.fromDoc env) (d.script_elements.getD []) with
  | Option.none => Option.none
  | some ses =>
    some
      { name := d.name.getD "New Project"
        version := d.version.getD "1.0.0"
        author := d.author.getD ""
        company := d.company.getD ""
        description := d.description.getD ""
        copyright := d.copyright.getD ("Copyright © " ++ env.nowYear)
        icon_path := d.icon_path.getD ""
        output_dir := d.output_dir.getD ""
        default_install_dir := d.default_install_dir.getD "%PROGRAMFILES%\\\x7bname\x7d"
        python_version := d.python_version.getD env.pyVersion
        require_admin := d.require_admin.getD true
        compression := d.compression.getD "upx"
        license_enabled := d.license_enabled.getD false
        license_text := d.license_text.getD ""
        license_file := d.license_file.getD ""
        create_uninstaller := d.create_uninstaller.getD true
        silent_mode := d.silent_mode.getD false
        overwrite_existing := d.overwrite_existing.getD true
        installer_title := d.installer_title.getD "\x7bname\x7d Setup"
        installer_style := d.installer_style.getD "default"
        background_color := d.background_color.getD ""
        text_color := d.text_color.getD ""
        button_color := d.button_color.getD ""
        custom_css := d.custom_css.getD ""
        onefile := d.onefile.getD true
        console := d.console.getD false
        hidden_imports := d.hidden_imports.getD []
        additional_hooks := d.additional_hooks.getD []
        exclude_modules := d.exclude_modules.getD []
        script_elements := ses
        shortcuts := d.shortcuts.getD []
        registry_entries := d.registry_entries.getD []
        dependencies := d.dependencies.getD []
        search_paths := d.search_paths.getD []
        files := (d.files.getD []).map (FileEntry.fromDict hfs)
        sign_installer := d.sign_installer.getD false
        certificate_path := d.certificate_path.getD ""
        certificate_password := d.certificate_password.getD ""
        timestamp_server := d.timestamp_server.getD "http://timestamp.digicert.com"
        created := d.created.getD env.nowIso
        modified := d.modified.getD env.nowIso }

/-- Model of `ProjectManager.save_project`: stamp `modified` with the current time,
then write `to_dict`'s document. -/
def saveProject (env : ModelEnv) (p : ProjectConfig) : ProjectDoc :=
  ProjectConfig.toDoc { p with modified := env.nowIso }

/-- The document with every top-level key absent (the extreme
older-version document). -/
def emptyDoc : ProjectDoc :=
  { name := Option.none, version := Option.none, author := Option.none,
    company := Option.none, description := Option.none,
    copyright := Option.none, icon_path := Option.none,
    output_dir := Option.none, default_install_dir := Option.none,
    python_version := Option.none, require_admin := Option.none,
    compression := Option.none, license_enabled := Option.none,
    license_text := Option.none, license_file := Option.none,
    create_uninstaller := Option.none, silent_mode := Option.none,
    overwrite_existing := Option.none, installer_title := Option.none,
    installer_style := Option.none, background_color := Option.none,
    text_color := Option.none, button_color := Option.none,
    custom_css := Option.none, onefile := Option.none,
    console := Option.none, hidden_imports := Option.none,
    additional_hooks := Option.none, exclude_modules := Option.none,
    script_elements := Option.none, shortcuts := Option.none,
    registry_entries := Option.none, dependencies := Option.none,
    search_paths := Option.none, files := Option.none,
    sign_installer := Option.none, certificate_path := Option.none,
    certificate_password := Option.none, timestamp_server := Option.none,
    created := Option.none, modified := Option.none }

/-! ## Auxiliary definitions used by the theorems -/

/-- The number of outcome events in a trace. -/
def outcomeCount (evs : List GenEvent) : Nat :=
  (evs.filter GenEvent.isOutcome).length

/-- The character substitution performed on the project name by the spec
synthesizer: spaces and hyphens become underscores, everything else is
untouched. -/
def underscoreSub (c : Char) : Char :=
  if c = ' ' || c = '-' then '_' else c

/-- A `ProjectConfig` with every dataclass default, given the ambient
timestamp and interpreter version. -/
def defaultProject (nowIso pyVersion : String) : ProjectConfig :=
  { name := "New Project", version := "1.0.0", author := "", company := "",
    description := "", copyright := "", icon_path := "", output_dir := "",
    default_install_dir := "%PROGRAMFILES%\\\x7bname\x7d",
    python_version := pyVersion, require_admin := true, compression := "upx",
    license_enabled := false, license_text := "", license_file := "",
    create_uninstaller := true, silent_mode := false,
    overwrite_existing := true, installer_title := "\x7bname\x7d Setup",
    installer_style := "default", background_color := "", text_color := "",
    button_color := "", custom_css := "", onefile := true, console := false,
    hidden_imports := [], additional_hooks := [], exclude_modules := [],
    script_elements := [], shortcuts := [], registry_entries := [],
    dependencies := [], search_paths := [], files := [],
    sign_installer := false, certificate_path := "",
    certificate_password := "",
    timestamp_server := "http://timestamp.digicert.com",
    created := nowIso, modified := nowIso }

/-- A default-shaped project with the required fields filled in: the
second validator scenario. -/
def requiredFieldsProject (nowIso pyVersion name dir : String) : ProjectConfig :=
  { defaultProject nowIso pyVersion with
      name := name, version := "1.0.0", output_dir := dir }

/-- A script element whose parameters bag declares a post-install python
script — the shape the spec says the installer runs. -/
def postInstallElem : ScriptElement :=
  { type := .run_script, name := "greet",
    parameters := [("event", .str "post_install"),
                   ("type", .str "python"),
                   ("content", .str "print('installed')")],
    id := "abcd1234", enabled := true, critical := false }

/-- A concrete non-directory file entry. -/
def demoFileEntry : FileEntry :=
  { source_path := "C:/build/app.exe", install_path := "bin/app.exe",
    is_binary := true, is_directory := false, compress := true,
    hash := "deadbeef", version := "1.0", description := "main binary" }

/-- A concrete registry entry declaring a `REG_DWORD` under
`HKEY_LOCAL_MACHINE`. -/
def demoRegEntry : RegistryEntry :=
  { hive := "HKEY_LOCAL_MACHINE", key := "Software\\Demo",
    value_name := "InstallCount", value_type := "REG_DWORD",
    value_data := .int 42, action := "create" }

/-- Installer-run filesystem on which every path exists. -/
def totalInstFS : InstFS :=
  { isFile := fun _ => true, isDir := fun _ => false,
    pathExists := fun _ => true }

/-- An install environment in which every failable pass succeeds. -/
def allOkInstallEnv : InstallEnv :=
  { fs := totalInstFS, hasWin32 := true, desktopDir := "C:/Users/u/Desktop",
    startMenuDir := "C:/Users/u/StartMenu", mkdirsOk := true, pipOk := true,
    copyOk := true, shortcutsOk := true, scriptsOk := true, uninstOk := true,
    errText := "" }

/-- An orchestrator environment in which every step succeeds. -/
def happyOrchEnv : OrchEnv :=
  { mkdtempRes := .ok "/tmp/instgen_x", writePyRes := .ok (),
    writeSpecRes := .ok (), runRes := .ok (), returncode := 0,
    stderr := "", distExists := true, distFiles := ["Demo_Setup.exe"],
    outDirExists := true, makedirsRes := .ok (), moveRes := .ok (),
    tempStillExists := true, rmtreeRes := .ok () }

/-- An orchestrator environment in which the packaging subprocess exits
with code 1 and stderr text. -/
def pyiFailOrchEnv : OrchEnv :=
  { happyOrchEnv with returncode := 1, stderr := "missing module foo" }

/-- A validator filesystem on which every path exists and is writable. -/
def totalProbeFS : ProbeFS :=
  { pathExists := fun _ => true, writable := fun _ => true }

/-- Concrete ambient values for the persistence theorems. -/
def demoModelEnv : ModelEnv :=
  { nowIso := "2024-01-02T03:04:05", nowYear := "2024",
    pyVersion := "3.11", uuid8 := "0a1b2c3d" }

/-- A hash filesystem with no existing paths. -/
def emptyHashFS : HashFS :=
  { pathExists := fun _ => false, hashOf := fun _ => "" }

/-! ## Theorems -/

/-- The character data of an appended string is the appended data. -/
theorem string_data_append (s t : String) : (s ++ t).data = s.data ++ t.data :=
  rfl

/--
C1.  The claim says the emitted installer runs exactly the script elements
whose `parameters` bag has `event == "post_install"`.  The code does not:
the generated run loop tests `script.get('event')` on the top level of the
serialized element, and `ScriptElement.to_dict` never emits a top-level
`event` key (the bag sits under `parameters`), so no element is ever
selected; moreover `_run_script` dispatches on the top-level `type`, which
holds the `ScriptElementType` value string and is never `python`/`cmd`, so
it would do nothing even if one were selected.  Witnessed on a concrete
element whose bag does say `event == "post_install"`.
-/
theorem claim_C1_post_install_scripts_never_run :
    postInstallScripts [ScriptElement.toDict postInstallElem] = []
    ∧ dictGet postInstallElem.parameters "event" = some (.str "post_install")
    ∧ (∀ e : ScriptElement, runsPostInstall (ScriptElement.toDict e) = false)
    ∧ (∀ ip : String, ∀ e : ScriptElement,
        runScript ip (ScriptElement.toDict e) = []) := by
  refine ⟨rfl, rfl, fun e => rfl, fun ip e => ?_⟩
  obtain ⟨t, n, pa, i, en, cr⟩ := e
  cases t <;> rfl

/--
C2.  The claim says the emitted installer copies every embedded file entry
to its install path.  The code does not: `_copy_file` reads the keys
`source` and `destination`, while `FileEntry.to_dict` emits `source_path`
and `install_path`, so both reads default to `''` and the routine returns
before any copy, for every file entry and any filesystem.
-/
theorem claim_C2_file_entries_never_copied :
    (∀ (fs : InstFS) (ip : String) (f : FileEntry),
      installCopyFile fs ip (FileEntry.toDict f) = [])
    ∧ dictGet (FileEntry.toDict demoFileEntry) "source" = Option.none
    ∧ dictGet (FileEntry.toDict demoFileEntry) "source_path"
        = some (.str "C:/build/app.exe") := by
  exact ⟨fun fs ip f => rfl, rfl, rfl⟩

/--
C4.  The claim says each embedded registry entry is applied with its
declared hive, value name, value data and value type.  The code does not:
`_apply_registry` reads `root`/`name`/`value`/`type`, while
`RegistryEntry.to_dict` emits `hive`/`value_name`/`value_data`/`value_type`
(only `key` matches), so every entry is written under the defaulted
`HKEY_CURRENT_USER` root at its declared key path with an empty value name,
type `REG_SZ` and empty string data — also for a declared `REG_DWORD`
entry under `HKEY_LOCAL_MACHINE`.
-/
theorem claim_C4_registry_declared_fields_ignored :
    (∀ r : RegistryEntry, applyRegistry (RegistryEntry.toDict r)
      = [.regCreateKey "HKEY_CURRENT_USER" r.key,
         .regWrite "HKEY_CURRENT_USER" r.key (.str "") "REG_SZ" (.str "")])
    ∧ applyRegistry (RegistryEntry.toDict demoRegEntry)
      = [.regCreateKey "HKEY_CURRENT_USER" "Software\\Demo",
         .regWrite "HKEY_CURRENT_USER" "Software\\Demo" (.str "") "REG_SZ"
           (.str "")] := by
  exact ⟨fun r => rfl, rfl⟩

/--
C10.  The executable name declared by the synthesized build spec is the
project name with each space and each hyphen replaced by an underscore,
followed by `_Setup`; every other character (including `/`, `:`, `"`)
passes through verbatim, characterised by the per-character substitution
`underscoreSub`.
-/
theorem claim_C10_spec_exe_name (p : ProjectConfig) :
    genSpecSource p = specSeg0 ++ specExeName p ++ specSeg1rest
    ∧ (specExeName p).data = p.name.data.map underscoreSub ++ "_Setup".data := by
  constructor
  · simp only [genSpecSource, specExeName, specSeg1, specNameSafe,
      String.append_assoc]
  · show (specNameSafe p.name ++ "_Setup").data = _
    rw [string_data_append]
    congr 1
    show ((p.name.data.map _).map _) = _
    rw [List.map_map]
    refine List.map_congr_left (fun c _ => ?_)
    by_cases h1 : c = ' ' <;> by_cases h2 : c = '-' <;>
      simp [underscoreSub, h1, h2]

/--
C9.  For every project — in particular one whose `create_uninstaller`
flag is false — the synthesized installer source pins its embedded
`CREATE_UNINSTALLER` constant to `True` (the literal line occurs in the
emitted text), and a successful run of the generated installer writes the
`uninstall.py` companion into the install directory.
-/
theorem claim_C9_uninstaller_always_created (p : ProjectConfig)
    (env : InstallEnv) (ip : String)
    (hmk : env.mkdirsOk = true) (hpip : env.pipOk = true)
    (hcp : env.copyOk = true) (hsc : env.shortcutsOk = true)
    (hscr : env.scriptsOk = true) (hun : env.uninstOk = true) :
    (genInstaller p).createUninstaller = true
    ∧ List.IsInfix cuConstLine.data (genInstallerSource p).data
    ∧ (installRun env (genInstaller p) ip).success = true
    ∧ InstallAct.writeFile (pjoin ip "uninstall.py")
        (uninstallSource (genInstaller p).projectName ip)
        ∈ (installRun env (genInstaller p) ip).acts := by
  have h8 : List.IsInfix cuConstLine.data instSeg8.data := by
    rw [instSeg8]
    exact ⟨"\n\n".data, instSeg8rest.data, by
      rw [string_data_append, string_data_append, List.append_assoc]⟩
  have hsuf : List.IsSuffix instSeg8.data (genInstallerSource p).data :=
    ⟨(instSeg0 ++ reprDictList (genInstaller p).filesData
      ++ instSeg1 ++ reprDictList (genInstaller p).shortcuts
      ++ instSeg2 ++ reprDictList (genInstaller p).registryEntries
      ++ instSeg3 ++ reprDictList (genInstaller p).scriptElements
      ++ instSeg4 ++ reprDictList (genInstaller p).dependencies
      ++ instSeg5 ++ jsonDumpsStr (genInstaller p).projectName
      ++ instSeg6 ++ jsonDumpsStr (genInstaller p).projectVersion
      ++ instSeg7 ++ jsonDumpsStr (genInstaller p).projectDescription).data,
     rfl⟩
  refine ⟨rfl, h8.trans hsuf.isInfix, ?_, ?_⟩ <;>
    simp [installRun, hmk, hpip, hcp, hsc, hscr, hun, genInstaller]

/--
C6.  The validator yields exactly the three required-field errors (and
validity false) on any project with empty name, version and output
directory; and yields no errors, no warnings and validity true on a
default-shaped project whose required fields are set, whose version is
`1.0.0`, whose output directory exists and is writable, and whose default
install directory carries the placeholder.
-/
theorem claim_C6_validator_scenarios (fs : ProbeFS) (p : ProjectConfig)
    (h1 : p.name = "") (h2 : p.version = "") (h3 : p.output_dir = "")
    (fs2 : ProbeFS) (t v nm dir : String)
    (hnm : nm ≠ "") (hnmt : pyStripWs nm ≠ "") (hdir : dir ≠ "")
    (hex : fs2.pathExists dir = true) (hw : fs2.writable dir = true) :
    ((validateProject fs p).errors
        = ["Project name is required", "Version is required",
           "Output directory is required"]
      ∧ (validateProject fs p).is_valid = false)
    ∧ validateProject fs2 (requiredFieldsProject t v nm dir)
      = { is_valid := true, errors := [], warnings := [] } := by
  refine ⟨⟨?_, ?_⟩, ?_⟩
  · simp [validateProject, h1, h2, h3]
  · simp [validateProject, h1, h2, h3]
  · have hb1 : (nm == "") = false := by simp [hnm]
    have hb2 : (pyStripWs nm == "") = false := by simp [hnmt]
    have hb3 : (dir == "") = false := by simp [hdir]
    simp [validateProject, requiredFieldsProject, defaultProject, hb1, hb2,
      hb3, hex, hw, versionFormatOk, containsSub]
    exact ⟨by decide, by decide, by decide⟩

/--
C5.  Both synthesizers are deterministic functions of the project content:
equal projects give byte-identical installer source and build-spec text,
and each embedded serialized sequence preserves the project's list order
verbatim (element `i` of the embedded data is the serialization of element
`i` of the project list).
-/
theorem claim_C5_synthesis_deterministic (p q : ProjectConfig) (h : p = q) :
    genInstallerSource p = genInstallerSource q
    ∧ genSpecSource p = genSpecSource q
    ∧ (∀ i : Nat, (genInstaller p).filesData[i]?
        = (p.files[i]?).map FileEntry.toDict)
    ∧ (∀ i : Nat, (genInstaller p).shortcuts[i]?
        = (p.shortcuts[i]?).map ShortcutConfig.toDict)
    ∧ (∀ i : Nat, (genInstaller p).registryEntries[i]?
        = (p.registry_entries[i]?).map RegistryEntry.toDict)
    ∧ (∀ i : Nat, (genInstaller p).scriptElements[i]?
        = (p.script_elements[i]?).map ScriptElement.toDict)
    ∧ (∀ i : Nat, (genInstaller p).dependencies[i]?
        = (p.dependencies[i]?).map Dependency.toDict) := by
  subst h
  refine ⟨rfl, rfl, ?_, ?_, ?_, ?_, ?_⟩ <;>
    intro i <;> simp [genInstaller]

/-- Witness for C5 at a concrete project. -/
theorem claim_C5_witness :
    genInstallerSource (defaultProject "2024-01-01" "3.11")
      = genInstallerSource (defaultProject "2024-01-01" "3.11")
    ∧ genSpecSource (defaultProject "2024-01-01" "3.11")
      = genSpecSource (defaultProject "2024-01-01" "3.11")
    ∧ (∀ i : Nat, (genInstaller (defaultProject "2024-01-01" "3.11")).filesData[i]?
        = ((defaultProject "2024-01-01" "3.11").files[i]?).map FileEntry.toDict)
    ∧ (∀ i : Nat, (genInstaller (defaultProject "2024-01-01" "3.11")).shortcuts[i]?
        = ((defaultProject "2024-01-01" "3.11").shortcuts[i]?).map
            ShortcutConfig.toDict)
    ∧ (∀ i : Nat, (genInstaller (defaultProject "2024-01-01" "3.11")).registryEntries[i]?
        = ((defaultProject "2024-01-01" "3.11").registry_entries[i]?).map
            RegistryEntry.toDict)
    ∧ (∀ i : Nat, (genInstaller (defaultProject "2024-01-01" "3.11")).scriptElements[i]?
        = ((defaultProject "2024-01-01" "3.11").script_elements[i]?).map
            ScriptElement.toDict)
    ∧ (∀ i : Nat, (genInstaller (defaultProject "2024-01-01" "3.11")).dependencies[i]?
        = ((defaultProject "2024-01-01" "3.11").dependencies[i]?).map
            Dependency.toDict) :=
  claim_C5_synthesis_deterministic _ _ rfl

/-- Witness for C6 at concrete inputs. -/
theorem claim_C6_witness :
    ((validateProject totalProbeFS
        { defaultProject "t" "3.11" with
            name := "", version := "", output_dir := "" }).errors
      = ["Project name is required", "Version is required",
         "Output directory is required"]
      ∧ (validateProject totalProbeFS
          { defaultProject "t" "3.11" with
              name := "", version := "", output_dir := "" }).is_valid = false)
    ∧ validateProject totalProbeFS
        (requiredFieldsProject "t" "3.11" "Demo" "C:/out")
      = { is_valid := true, errors := [], warnings := [] } :=
  claim_C6_validator_scenarios totalProbeFS _ rfl rfl rfl totalProbeFS
    "t" "3.11" "Demo" "C:/out" (by decide) (by decide) (by decide) rfl rfl

/-- Witness for C9 at concrete inputs. -/
theorem claim_C9_witness :
    (genInstaller (defaultProject "t" "3.11")).createUninstaller = true
    ∧ List.IsInfix cuConstLine.data
        (genInstallerSource (defaultProject "t" "3.11")).data
    ∧ (installRun allOkInstallEnv (genInstaller (defaultProject "t" "3.11"))
        "C:/Apps/Demo").success = true
    ∧ InstallAct.writeFile (pjoin "C:/Apps/Demo" "uninstall.py")
        (uninstallSource (genInstaller (defaultProject "t" "3.11")).projectName
          "C:/Apps/Demo")
        ∈ (installRun allOkInstallEnv (genInstaller (defaultProject "t" "3.11"))
            "C:/Apps/Demo").acts :=
  claim_C9_uninstaller_always_created _ allOkInstallEnv _
    rfl rfl rfl rfl rfl rfl

/-- Counting outcomes in a trace of shape `A ++ outcome :: C` with
outcome-free `A` and `C`. -/
theorem outcomeCount_shape (A C : List GenEvent) (m : String) (s : Bool)
    (hA : ∀ e ∈ A, e.isOutcome = false) (hC : ∀ e ∈ C, e.isOutcome = false) :
    outcomeCount (A ++ GenEvent.finished m s :: C) = 1 := by
  induction A with
  | nil =>
    have hfil : C.filter GenEvent.isOutcome = [] := by
      refine List.filter_eq_nil_iff.mpr (fun a ha => ?_)
      simp [hC a ha]
    simp [outcomeCount, List.filter_cons, GenEvent.isOutcome, hfil]
  | cons a as ih =>
    have ha : a.isOutcome = false := hA a (by simp)
    have ih' := ih (fun e he => hA e (by simp [he]))
    simpa [outcomeCount, List.filter_cons, ha] using ih'

/-- The events after the outcome in a trace of shape `A ++ outcome :: C`
with outcome-free `A` are exactly `C`. -/
theorem eventsAfterOutcome_shape (A C : List GenEvent) (m : String) (s : Bool)
    (hA : ∀ e ∈ A, e.isOutcome = false) :
    eventsAfterOutcome (A ++ GenEvent.finished m s :: C) = C := by
  induction A with
  | nil => simp [eventsAfterOutcome, List.dropWhile, GenEvent.isOutcome]
  | cons a as ih =>
    have ha : a.isOutcome = false := hA a (by simp)
    have ih' := ih (fun e he => hA e (by simp [he]))
    simpa [eventsAfterOutcome, List.dropWhile, ha] using ih'

/-- Model of `_run_pyinstaller` emits only progress and log events, never an
outcome. -/
theorem runPyinstaller_no_outcome (env : OrchEnv) (td out : String) :
    ∀ e ∈ (runPyinstaller env td out).1, e.isOutcome = false := by
  intro e he
  simp only [runPyinstaller] at he
  repeat' split at he
  all_goals simp only [List.mem_append, List.mem_cons, List.mem_singleton,
    List.not_mem_nil, or_false, false_or] at he
  all_goals (try casesm* _ ∨ _)
  all_goals subst_vars
  all_goals rfl

/-- The `try` body either ends in the success outcome (preceded by
outcome-free events) or raises with an outcome-free event prefix. -/
theorem generatorBody_shape (env : OrchEnv) (td out : String) :
    (∃ A, generatorBody env td out = (A ++ [GenEvent.finished out true], Option.none)
        ∧ ∀ e ∈ A, e.isOutcome = false)
    ∨ (∃ m, (generatorBody env td out).2 = some m
        ∧ ∀ e ∈ (generatorBody env td out).1, e.isOutcome = false) := by
  have hpyi := runPyinstaller_no_outcome env td out
  unfold generatorBody
  cases hwp : env.writePyRes with
  | error msg => right; exact ⟨msg, rfl, by simp⟩
  | ok _ =>
    cases hws : env.writeSpecRes with
    | error msg => right; exact ⟨msg, rfl, by simp [GenEvent.isOutcome]⟩
    | ok _ =>
      rcases hrp : runPyinstaller env td out with ⟨pevs, pexc⟩
      rw [hrp] at hpyi
      cases pexc with
      | none =>
        left
        refine ⟨[GenEvent.progress 20 "Generated installer script"]
            ++ ([GenEvent.progress 35 "Generated PyInstaller spec"] ++ pevs
            ++ [GenEvent.progress 100 "Installer build completed",
                GenEvent.log "Installer generation successful"]), ?_, ?_⟩
        · simp
        · intro e he
          simp only [List.mem_append, List.mem_cons, List.mem_singleton,
            List.not_mem_nil, or_false, false_or] at he
          (try casesm* _ ∨ _) <;>
            first
              | (subst_vars; rfl)
              | exact hpyi _ (by assumption)
      | some m =>
        right
        refine ⟨m, rfl, ?_⟩
        intro e he
        simp only [List.mem_append, List.mem_cons, List.mem_singleton,
          List.not_mem_nil, or_false, false_or] at he
        (try casesm* _ ∨ _) <;>
          first
            | (subst_vars; rfl)
            | exact hpyi _ (by assumption)

/-- The cleanup events of the `finally` block: at most one log line,
never an outcome. -/
theorem cleanup_events_shape (env : OrchEnv) (td : String) :
    ∀ (C : List GenEvent),
      C = (if env.tempStillExists then
            match env.rmtreeRes with
            | .ok _ => ([GenEvent.log ("Cleaned up temp directory: " ++ td)], true)
            | .error e =>
              ([GenEvent.log ("Warning: Could not clean temp directory: " ++ e)],
               false)
          else ([], false)).1 →
      (∀ e ∈ C, e.isOutcome = false ∧ e.isLog = true) ∧ C.length ≤ 1 := by
  intro C hC
  cases hts : env.tempStillExists <;> cases hrm : env.rmtreeRes <;>
    simp [hts, hrm] at hC <;> subst hC <;>
    simp [GenEvent.isOutcome, GenEvent.isLog]

/--
C3 counterexample.  On a fully successful run with an existing scratch
directory, the last emitted event is the cleanup log line, not the
terminal outcome event, refuting the claim that the outcome is always the
last event emitted.
-/
theorem claim_C3_counterexample :
    (generatorRun happyOrchEnv "C:/out/Demo_Setup.exe").events.getLast?
      = some (.log "Cleaned up temp directory: /tmp/instgen_x")
    ∧ outcomeLast (generatorRun happyOrchEnv "C:/out/Demo_Setup.exe").events
      = false
    ∧ (generatorRun happyOrchEnv "C:/out/Demo_Setup.exe").events.any
        GenEvent.isOutcome = true := by
  exact ⟨rfl, rfl, rfl⟩

/--
C3 (amended).  In every orchestrator run exactly one terminal outcome
event is emitted and no progress or log event follows it, except for
the at-most-one cleanup log line emitted by the `finally` block after the
outcome; in particular no progress event is ever emitted after the
outcome.
-/
theorem claim_C3_outcome_order (env : OrchEnv) (out : String) :
    outcomeCount (generatorRun env out).events = 1
    ∧ (∀ e ∈ eventsAfterOutcome (generatorRun env out).events, e.isLog = true)
    ∧ (eventsAfterOutcome (generatorRun env out).events).length ≤ 1 := by
  unfold generatorRun
  cases hmk : env.mkdtempRes with
  | error msg =>
    refine ⟨?_, ?_, ?_⟩ <;>
      simp [outcomeCount, eventsAfterOutcome, List.dropWhile,
        List.filter_cons, GenEvent.isOutcome]
  | ok td =>
    dsimp only
    have hclean := cleanup_events_shape env td _ rfl
    rcases generatorBody_shape env td out with ⟨A, hEq, hA⟩ | ⟨m, hsome, hno⟩
    · rw [hEq]
      dsimp only
      have hA' : ∀ e ∈ ([GenEvent.progress 0 "Starting installer generation...",
          GenEvent.log "=== Installer Generation Started ==="]
          ++ [GenEvent.progress 5 ("Created temp directory: " ++ td)]) ++ A,
          e.isOutcome = false := by
        intro e he
        simp only [List.mem_append, List.mem_cons, List.mem_singleton,
          List.not_mem_nil, or_false, false_or] at he
        (try casesm* _ ∨ _) <;>
          first
            | (subst_vars; rfl)
            | exact hA _ (by assumption)
      have hshape :
          ([GenEvent.progress 0 "Starting installer generation...",
            GenEvent.log "=== Installer Generation Started ==="]
            ++ [GenEvent.progress 5 ("Created temp directory: " ++ td)]
            ++ (A ++ [GenEvent.finished out true]) ++ []
            ++ (if env.tempStillExists = true then
                match env.rmtreeRes with
                | .ok _ =>
                  ([GenEvent.log ("Cleaned up temp directory: " ++ td)], true)
                | .error e =>
                  ([GenEvent.log ("Warning: Could not clean temp directory: "
                      ++ e)], false)
              else ([], false)).1)
          = (([GenEvent.progress 0 "Starting installer generation...",
            GenEvent.log "=== Installer Generation Started ==="]
            ++ [GenEvent.progress 5 ("Created temp directory: " ++ td)]) ++ A)
            ++ GenEvent.finished out true
              :: (if env.tempStillExists = true then
                match env.rmtreeRes with
                | .ok _ =>
                  ([GenEvent.log ("Cleaned up temp directory: " ++ td)], true)
                | .error e =>
                  ([GenEvent.log ("Warning: Could not clean temp directory: "
                      ++ e)], false)
              else ([], false)).1 := by
        simp
      rw [hshape]
      refine ⟨outcomeCount_shape _ _ _ _ hA' (fun e he => (hclean.1 e he).1),
        ?_, ?_⟩
      · rw [eventsAfterOutcome_shape _ _ _ _ hA']
        exact fun e he => (hclean.1 e he).2
      · rw [eventsAfterOutcome_shape _ _ _ _ hA']
        exact hclean.2
    · rw [hsome]
      dsimp only
      have hA' : ∀ e ∈ ([GenEvent.progress 0 "Starting installer generation...",
          GenEvent.log "=== Installer Generation Started ==="]
          ++ [GenEvent.progress 5 ("Created temp directory: " ++ td)])
          ++ (generatorBody env td out).1
          ++ [GenEvent.log ("ERROR: Installer generation failed: " ++ m)],
          e.isOutcome = false := by
        intro e he
        simp only [List.mem_append, List.mem_cons, List.mem_singleton,
          List.not_mem_nil, or_false, false_or] at he
        (try casesm* _ ∨ _) <;>
          first
            | (subst_vars; rfl)
            | exact hno _ (by assumption)
      have hshape :
          ([GenEvent.progress 0 "Starting installer generation...",
            GenEvent.log "=== Installer Generation Started ==="]
            ++ [GenEvent.progress 5 ("Created temp directory: " ++ td)]
            ++ (generatorBody env td out).1
            ++ [GenEvent.log ("ERROR: Installer generation failed: " ++ m),
                GenEvent.finished ("Installer generation failed: " ++ m) false]
            ++ (if env.tempStillExists = true then
                match env.rmtreeRes with
                | .ok _ =>
                  ([GenEvent.log ("Cleaned up temp directory: " ++ td)], true)
                | .error e =>
                  ([GenEvent.log ("Warning: Could not clean temp directory: "
                      ++ e)], false)
              else ([], false)).1)
          = (([GenEvent.progress 0 "Starting installer generation...",
            GenEvent.log "=== Installer Generation Started ==="]
            ++ [GenEvent.progress 5 ("Created temp directory: " ++ td)])
            ++ (generatorBody env td out).1
            ++ [GenEvent.log ("ERROR: Installer generation failed: " ++ m)])
            ++ GenEvent.finished ("Installer generation failed: " ++ m) false
              :: (if env.tempStillExists = true then
                match env.rmtreeRes with
                | .ok _ =>
                  ([GenEvent.log ("Cleaned up temp directory: " ++ td)], true)
                | .error e =>
                  ([GenEvent.log ("Warning: Could not clean temp directory: "
                      ++ e)], false)
              else ([], false)).1 := by
        simp
      rw [hshape]
      refine ⟨outcomeCount_shape _ _ _ _ hA' (fun e he => (hclean.1 e he).1),
        ?_, ?_⟩
      · rw [eventsAfterOutcome_shape _ _ _ _ hA']
        exact fun e he => (hclean.1 e he).2
      · rw [eventsAfterOutcome_shape _ _ _ _ hA']
        exact hclean.2

/-- Witness for C3's amended ordering statement at a concrete run. -/
theorem claim_C3_outcome_order_witness :
    outcomeCount (generatorRun happyOrchEnv "C:/out/Demo_Setup.exe").events = 1
    ∧ (∀ e ∈ eventsAfterOutcome
          (generatorRun happyOrchEnv "C:/out/Demo_Setup.exe").events,
        e.isLog = true)
    ∧ (eventsAfterOutcome
        (generatorRun happyOrchEnv "C:/out/Demo_Setup.exe").events).length ≤ 1 :=
  claim_C3_outcome_order happyOrchEnv "C:/out/Demo_Setup.exe"

/--
C8.  When the packaging subprocess exits non-zero (everything before it
having succeeded), the run goes straight to failure: exactly one outcome
event is emitted, it carries `success = false` and a message containing
the captured stderr text, and the scratch workspace is still removed
before the run ends.
-/
theorem claim_C8_packaging_failure (env : OrchEnv) (out t : String)
    (h1 : env.mkdtempRes = .ok t) (h2 : env.writePyRes = .ok ())
    (h3 : env.writeSpecRes = .ok ()) (h4 : env.runRes = .ok ())
    (h5 : env.returncode ≠ 0) (h6 : env.tempStillExists = true)
    (h7 : env.rmtreeRes = .ok ()) :
    (generatorRun env out).workspaceRemoved = true
    ∧ outcomeCount (generatorRun env out).events = 1
    ∧ firstOutcome (generatorRun env out).events
        = some ("Installer generation failed: "
            ++ ("PyInstaller failed: " ++ env.stderr), false)
    ∧ List.IsSuffix env.stderr.data
        ("Installer generation failed: "
          ++ ("PyInstaller failed: " ++ env.stderr)).data := by
  have hrc : (env.returncode != 0) = true := by
    simp [bne_iff_ne, h5]
  refine ⟨?_, ?_, ?_, ?_⟩
  · simp [generatorRun, generatorBody, runPyinstaller, h1, h2, h3, h4, hrc,
      h6, h7]
  · simp [generatorRun, generatorBody, runPyinstaller, h1, h2, h3, h4, hrc,
      h6, h7, outcomeCount, List.filter_cons, List.filter_append,
      GenEvent.isOutcome]
  · simp [generatorRun, generatorBody, runPyinstaller, h1, h2, h3, h4, hrc,
      h6, h7, firstOutcome, List.findSome?_cons]
  · exact ⟨"Installer generation failed: ".data
      ++ "PyInstaller failed: ".data, rfl⟩

/-- Witness for C8 at a concrete environment. -/
theorem claim_C8_witness :
    (generatorRun pyiFailOrchEnv "C:/out/Demo_Setup.exe").workspaceRemoved = true
    ∧ outcomeCount (generatorRun pyiFailOrchEnv "C:/out/Demo_Setup.exe").events = 1
    ∧ firstOutcome (generatorRun pyiFailOrchEnv "C:/out/Demo_Setup.exe").events
        = some ("Installer generation failed: "
            ++ ("PyInstaller failed: " ++ pyiFailOrchEnv.stderr), false)
    ∧ List.IsSuffix pyiFailOrchEnv.stderr.data
        ("Installer generation failed: "
          ++ ("PyInstaller failed: " ++ pyiFailOrchEnv.stderr)).data :=
  claim_C8_packaging_failure pyiFailOrchEnv "C:/out/Demo_Setup.exe"
    "/tmp/instgen_x" rfl rfl rfl rfl (by decide) rfl rfl

/-- The enum round-trips through its value string. -/
theorem ScriptElementType.ofValue_value (t : ScriptElementType) :
    ScriptElementType.ofValue t.value = some t := by
  cases t <;> rfl

/-- A script element with a nonempty id round-trips through its document
form. -/
theorem ScriptElement.fromDoc_toDoc (env : ModelEnv) (e : ScriptElement)
    (h : e.id ≠ "") :
    ScriptElement.fromDoc env (ScriptElement.toDoc e) = some e := by
  have hb : (e.id == "") = false := by simp [h]
  simp [ScriptElement.fromDoc, ScriptElement.toDoc,
    ScriptElementType.ofValue_value, hb]

/-- A list of script elements with nonempty ids round-trips through its
document form. -/
theorem mapOption_fromDoc_toDoc (env : ModelEnv) (l : List ScriptElement)
    (h : ∀ e ∈ l, e.id ≠ "") :
    mapOption (ScriptElement.fromDoc env) (l.map ScriptElement.toDoc)
      = some l := by
  induction l with
  | nil => rfl
  | cons a as ih =>
    rw [List.map_cons, mapOption,
      ScriptElement.fromDoc_toDoc env a (h a (by simp)),
      ih (fun e he => h e (by simp [he]))]

/-- Reading back a file entry is the identity when its stored hash is
consistent with the current filesystem. -/
theorem FileEntry.fromDict_stable (hfs : HashFS) (f : FileEntry)
    (h : f.hash = "" → hfs.pathExists f.source_path = true →
      f.is_directory = false → hfs.hashOf f.source_path = "") :
    FileEntry.fromDict hfs f = f := by
  unfold FileEntry.fromDict
  split
  · rename_i hcond
    simp only [Bool.and_eq_true, beq_iff_eq, Bool.not_eq_true'] at hcond
    obtain ⟨⟨hh, hex⟩, hdir⟩ := hcond
    have hz : hfs.hashOf f.source_path = "" := h hh hex hdir
    have hc : calcHash hfs f.source_path f.is_directory = f.hash := by
      rw [calcHash, hdir, hex]
      simp [hz, hh]
    rw [hc]
  · rfl

/-- Reading back a file-entry list is the identity under the same
consistency condition. -/
theorem map_fromDict_stable (hfs : HashFS) (l : List FileEntry)
    (h : ∀ f ∈ l, f.hash = "" → hfs.pathExists f.source_path = true →
      f.is_directory = false → hfs.hashOf f.source_path = "") :
    l.map (FileEntry.fromDict hfs) = l := by
  induction l with
  | nil => rfl
  | cons a as ih =>
    rw [List.map_cons, FileEntry.fromDict_stable hfs a (h a (by simp)),
      ih (fun f hf => h f (by simp [hf]))]

/--
C7.  Serializing a ProjectConfig to the persisted document form and
reading it back reproduces the structure field-for-field (script-element
ids are nonempty by construction, and stored file hashes are consistent
with the unchanged filesystem); through `save_project` the same holds with
`modified` freshly stamped.  For an older-shaped document, reading
backfills the documented defaults: a missing `company` becomes the empty
string, a missing `copyright` the computed default string, and the missing
boolean flags their documented defaults.
-/
theorem claim_C7_document_roundtrip (env : ModelEnv) (hfs : HashFS)
    (p : ProjectConfig)
    (hid : ∀ e ∈ p.script_elements, e.id ≠ "")
    (hhash : ∀ f ∈ p.files, f.hash = "" →
      hfs.pathExists f.source_path = true → f.is_directory = false →
      hfs.hashOf f.source_path = "")
    (d : ProjectDoc) :
    ProjectConfig.fromDoc env hfs (ProjectConfig.toDoc p) = some p
    ∧ ProjectConfig.fromDoc env hfs (saveProject env p)
        = some { p with modified := env.nowIso }
    ∧ (d.company = Option.none → ∀ q,
        ProjectConfig.fromDoc env hfs d = some q → q.company = "")
    ∧ (d.copyright = Option.none → ∀ q,
        ProjectConfig.fromDoc env hfs d = some q →
        q.copyright = "Copyright © " ++ env.nowYear)
    ∧ (d.create_uninstaller = Option.none → ∀ q,
        ProjectConfig.fromDoc env hfs d = some q → q.create_uninstaller = true)
    ∧ (d.silent_mode = Option.none → ∀ q,
        ProjectConfig.fromDoc env hfs d = some q → q.silent_mode = false)
    ∧ (d.overwrite_existing = Option.none → ∀ q,
        ProjectConfig.fromDoc env hfs d = some q →
        q.overwrite_existing = true) := by
  have hmapM := mapOption_fromDoc_toDoc env p.script_elements hid
  have hfiles := map_fromDict_stable hfs p.files hhash
  refine ⟨?_, ?_, ?_, ?_, ?_, ?_, ?_⟩
  · simp [ProjectConfig.fromDoc, ProjectConfig.toDoc, hmapM, hfiles]
  · simp [ProjectConfig.fromDoc, ProjectConfig.toDoc, saveProject, hmapM,
      hfiles]
  · intro h q hq
    cases hm : mapOption (ScriptElement.fromDoc env) (d.script_elements.getD []) with
    | none => simp [ProjectConfig.fromDoc, hm] at hq
    | some ses =>
      simp only [ProjectConfig.fromDoc, hm, Option.some.injEq] at hq
      subst hq
      simp [h]
  · intro h q hq
    cases hm : mapOption (ScriptElement.fromDoc env) (d.script_elements.getD []) with
    | none => simp [ProjectConfig.fromDoc, hm] at hq
    | some ses =>
      simp only [ProjectConfig.fromDoc, hm, Option.some.injEq] at hq
      subst hq
      simp [h]
  · intro h q hq
    cases hm : mapOption (ScriptElement.fromDoc env) (d.script_elements.getD []) with
    | none => simp [ProjectConfig.fromDoc, hm] at hq
    | some ses =>
      simp only [ProjectConfig.fromDoc, hm, Option.some.injEq] at hq
      subst hq
      simp [h]
  · intro h q hq
    cases hm : mapOption (ScriptElement.fromDoc env) (d.script_elements.getD []) with
    | none => simp [ProjectConfig.fromDoc, hm] at hq
    | some ses =>
      simp only [ProjectConfig.fromDoc, hm, Option.some.injEq] at hq
      subst hq
      simp [h]
  · intro h q hq
    cases hm : mapOption (ScriptElement.fromDoc env) (d.script_elements.getD []) with
    | none => simp [ProjectConfig.fromDoc, hm] at hq
    | some ses =>
      simp only [ProjectConfig.fromDoc, hm, Option.some.injEq] at hq
      subst hq
      simp [h]

/-- Witness for C7 at a concrete project, clock and document. -/
theorem claim_C7_witness :
    ProjectConfig.fromDoc demoModelEnv emptyHashFS
        (ProjectConfig.toDoc (defaultProject "2024-01-01" "3.11"))
      = some (defaultProject "2024-01-01" "3.11")
    ∧ ProjectConfig.fromDoc demoModelEnv emptyHashFS
        (saveProject demoModelEnv (defaultProject "2024-01-01" "3.11"))
      = some { defaultProject "2024-01-01" "3.11" with
          modified := demoModelEnv.nowIso }
    ∧ (emptyDoc.company = Option.none → ∀ q,
        ProjectConfig.fromDoc demoModelEnv emptyHashFS emptyDoc = some q →
        q.company = "")
    ∧ (emptyDoc.copyright = Option.none → ∀ q,
        ProjectConfig.fromDoc demoModelEnv emptyHashFS emptyDoc = some q →
        q.copyright = "Copyright © " ++ demoModelEnv.nowYear)
    ∧ (emptyDoc.create_uninstaller = Option.none → ∀ q,
        ProjectConfig.fromDoc demoModelEnv emptyHashFS emptyDoc = some q →
        q.create_uninstaller = true)
    ∧ (emptyDoc.silent_mode = Option.none → ∀ q,
        ProjectConfig.fromDoc demoModelEnv emptyHashFS emptyDoc = some q →
        q.silent_mode = false)
    ∧ (emptyDoc.overwrite_existing = Option.none → ∀ q,
        ProjectConfig.fromDoc demoModelEnv emptyHashFS emptyDoc = some q →
        q.overwrite_existing = true) :=
  claim_C7_document_roundtrip demoModelEnv emptyHashFS
    (defaultProject "2024-01-01" "3.11") (by simp [defaultProject])
    (by simp [defaultProject]) emptyDoc

end InstallerCreator
